import Mathlib

/-!
Verification of the transport-abstraction layer of the salvo core crate
(src/crates/core/src/conn/addr.rs and src/crates/core/src/conn/tcp.rs).

The Rust code is shallowly embedded: each Rust type becomes a Lean
structure or inductive, each function a computable Lean definition that
mirrors the source match-by-match.  Asynchronous operating-system effects
(binding a listener, accepting a connection, the HTTP engine serving a
connection) are passed in explicitly as oracle results of the same shape
as the Rust expressions they replace.
-/

/-- An IPv4 address: four octets, mirroring `std::net::Ipv4Addr`. -/
structure Ipv4Addr where
  o1 : Nat
  o2 : Nat
  o3 : Nat
  o4 : Nat
deriving DecidableEq, Repr

/-- Mirrors `std::net::SocketAddrV4`: an IPv4 address and a port. -/
structure SocketAddrV4 where
  ip : Ipv4Addr
  port : Nat
deriving DecidableEq, Repr

/-- An IPv6 address as its eight 16-bit segments, mirroring
`std::net::Ipv6Addr::segments`. -/
structure Ipv6Addr where
  segs : List Nat
deriving DecidableEq, Repr

/-- Mirrors `std::net::SocketAddrV6`: address, port, flow info, scope id. -/
structure SocketAddrV6 where
  ip : Ipv6Addr
  port : Nat
  flowinfo : Nat
  scope_id : Nat
deriving DecidableEq, Repr

/-- Mirrors `std::net::SocketAddr`, the standard-library union of V4/V6. -/
inductive StdSocketAddr where
  | V4 : SocketAddrV4 → StdSocketAddr
  | V6 : SocketAddrV6 → StdSocketAddr
deriving DecidableEq, Repr

/-- Mirrors `tokio::net::unix::SocketAddr` as observed through
`as_pathname()`: an optional filesystem path (none for anonymous or
abstract sockets). -/
structure UnixSocketAddr where
  pathname : Option String
deriving DecidableEq, Repr

/-- The unified address union `SocketAddr` of addr.rs (lines 12-23):
Unknown, IPv4, IPv6 and (on unix platforms) Unix. -/
inductive SocketAddr where
  | Unknown : SocketAddr
  | IPv4 : SocketAddrV4 → SocketAddr
  | IPv6 : SocketAddrV6 → SocketAddr
  | Unix : UnixSocketAddr → SocketAddr
deriving DecidableEq, Repr

/-- The `From<std::net::SocketAddr>` conversion of addr.rs lines 24-32. -/
def SocketAddr.fromStd : StdSocketAddr → SocketAddr
  | .V4 val => SocketAddr.IPv4 val
  | .V6 val => SocketAddr.IPv6 val

/-- `SocketAddr::is_ipv4` (addr.rs lines 56-58). -/
def SocketAddr.is_ipv4 : SocketAddr → Bool
  | .IPv4 _ => true
  | _ => false

/-- `SocketAddr::is_ipv6` (addr.rs lines 61-63). -/
def SocketAddr.is_ipv6 : SocketAddr → Bool
  | .IPv6 _ => true
  | _ => false

/-- `SocketAddr::is_unix` (addr.rs lines 79-81, unix cfg). -/
def SocketAddr.is_unix : SocketAddr → Bool
  | .Unix _ => true
  | _ => false

/-- `SocketAddr::into_std` (addr.rs lines 67-73): IPv4/IPv6 convert back,
every other variant gives `none`. -/
def SocketAddr.into_std : SocketAddr → Option StdSocketAddr
  | .IPv4 addr => some (.V4 addr)
  | .IPv6 addr => some (.V6 addr)
  | _ => none

/-- `SocketAddr::as_ipv4` (addr.rs lines 94-99). -/
def SocketAddr.as_ipv4 : SocketAddr → Option SocketAddrV4
  | .IPv4 addr => some addr
  | _ => none

/-- `SocketAddr::as_ipv6` (addr.rs lines 86-91). -/
def SocketAddr.as_ipv6 : SocketAddr → Option SocketAddrV6
  | .IPv6 addr => some addr
  | _ => none

/-- `SocketAddr::as_unix` (addr.rs lines 105-110, unix cfg). -/
def SocketAddr.as_unix : SocketAddr → Option UnixSocketAddr
  | .Unix addr => some addr
  | _ => none

/-- Rendering of `std::net::Ipv4Addr` (standard library `Display`):
dotted decimal octets. -/
def ipv4ToString (a : Ipv4Addr) : String :=
  toString a.o1 ++ "." ++ toString a.o2 ++ "." ++ toString a.o3 ++ "." ++ toString a.o4

/-- Rendering of `std::net::SocketAddrV4` (standard library `Display`):
`ip:port`. -/
def sockAddrV4ToString (a : SocketAddrV4) : String :=
  ipv4ToString a.ip ++ ":" ++ toString a.port

/-- Lowercase hexadecimal rendering of a segment, as the standard library
writes IPv6 segments. -/
def hexStr (n : Nat) : String :=
  String.mk (Nat.toDigits 16 n)

/-- Length of the run of zero segments at the head of the list. -/
def runLen : List Nat → Nat
  | [] => 0
  | s :: rest => if s = 0 then runLen rest + 1 else 0

/-- First longest run of zero segments, as `(start, length)`, following
the standard library's zero-compression search (a later run replaces the
current best only when strictly longer). -/
def bestRun (segs : List Nat) : Nat × Nat :=
  (List.range segs.length).foldl
    (fun best i =>
      let len := runLen (segs.drop i)
      if len > best.2 then (i, len) else best)
    (0, 0)

/-- Segments joined by colons in lowercase hex. -/
def joinColon (l : List Nat) : String :=
  String.intercalate ":" (l.map hexStr)

/-- Rendering of `std::net::Ipv6Addr` (standard library `Display`):
the IPv4-mapped special form, otherwise colon-hex with the first longest
zero run of length at least two compressed to `::`. -/
def ipv6ToString (ip : Ipv6Addr) : String :=
  match ip.segs with
  | [0, 0, 0, 0, 0, 0xffff, g, h] =>
      "::ffff:" ++ toString (g / 256) ++ "." ++ toString (g % 256) ++ "."
        ++ toString (h / 256) ++ "." ++ toString (h % 256)
  | segs =>
      let best := bestRun segs
      if best.2 > 1 then
        joinColon (segs.take best.1) ++ "::" ++ joinColon (segs.drop (best.1 + best.2))
      else
        joinColon segs

/-- Rendering of `std::net::SocketAddrV6` (standard library `Display`):
`[ip]:port`, with `%scope_id` inside the brackets when the scope id is
nonzero. -/
def sockAddrV6ToString (a : SocketAddrV6) : String :=
  if a.scope_id = 0 then
    "[" ++ ipv6ToString a.ip ++ "]:" ++ toString a.port
  else
    "[" ++ ipv6ToString a.ip ++ "%" ++ toString a.scope_id ++ "]:" ++ toString a.port

/-- `Display for SocketAddr` (addr.rs lines 114-127). -/
def SocketAddr.display : SocketAddr → String
  | .Unknown => "unknown"
  | .IPv4 addr => "socket://" ++ sockAddrV4ToString addr
  | .IPv6 addr => "socket://" ++ sockAddrV6ToString addr
  | .Unix addr =>
    match addr.pathname with
    | some path => "unix://" ++ path
    | none => "unix://unknown"

/-- Modelled from the spec: the transport-protocol tag `TransProto` is
defined in the conn module, which is not part of the excerpt; the spec
lists transport tags TCP, UDP and unknown. -/
inductive TransProto where
  | Unknown : TransProto
  | Tcp : TransProto
  | Udp : TransProto
deriving DecidableEq, Repr

/-- Modelled from the spec: the application-protocol tag `AppProto` is
defined in the conn module, which is not part of the excerpt; the spec
lists application tags HTTP and unknown. -/
inductive AppProto where
  | Unknown : AppProto
  | Http : AppProto
deriving DecidableEq, Repr

/-- Modelled from the spec: `Display` of a transport tag; the spec's
rendering scenario shows transport tag TCP rendering as `TCP`. -/
def TransProto.display : TransProto → String
  | .Unknown => "UNKNOWN"
  | .Tcp => "TCP"
  | .Udp => "UDP"

/-- Modelled from the spec: `Display` of an application tag; the spec's
rendering scenario shows application tag HTTP rendering as `HTTP`. -/
def AppProto.display : AppProto → String
  | .Unknown => "UNKNOWN"
  | .Http => "HTTP"

/-- `LocalAddr` (addr.rs lines 133-137): an address plus transport- and
application-protocol tags. -/
structure LocalAddr where
  addr : SocketAddr
  trans_proto : TransProto
  app_proto : AppProto
deriving DecidableEq, Repr

/-- `LocalAddr::new` (addr.rs lines 140-146). -/
def LocalAddr.new (addr : SocketAddr) (trans_proto : TransProto) (app_proto : AppProto) :
    LocalAddr :=
  ⟨addr, trans_proto, app_proto⟩

/-- `LocalAddr::into_std` (addr.rs lines 150-152): delegates to the inner
address. -/
def LocalAddr.into_std (l : LocalAddr) : Option StdSocketAddr :=
  l.addr.into_std

/-- `Default for LocalAddr` (addr.rs lines 154-158). -/
def LocalAddr.default : LocalAddr :=
  LocalAddr.new SocketAddr.Unknown TransProto.Unknown AppProto.Unknown

/-- `Display for LocalAddr` (addr.rs lines 172-185).  The pathless-Unix
branch of the source is `f.write_str("({}) unix://unknown", self.trans_proto)`:
`Formatter::write_str` takes a single string and performs no interpolation
(the call as written does not even type-check, since `write_str` accepts no
second argument), so the branch is embedded as emitting its template
literally, the transport tag never substituted. -/
def LocalAddr.display (l : LocalAddr) : String :=
  match l.addr with
  | .Unknown => "unknown"
  | .IPv4 addr =>
      "(" ++ l.trans_proto.display ++ ") " ++ l.app_proto.display ++ "://"
        ++ sockAddrV4ToString addr
  | .IPv6 addr =>
      "(" ++ l.trans_proto.display ++ ") " ++ l.app_proto.display ++ "://"
        ++ sockAddrV6ToString addr
  | .Unix addr =>
    match addr.pathname with
    | some path => "(" ++ l.trans_proto.display ++ ") unix://" ++ path
    | none => "(\x7b\x7d) unix://unknown"

/-- The error kinds of `std::io::ErrorKind` used by the excerpt. -/
inductive ErrorKind where
  | Other : ErrorKind
  | AddrInUse : ErrorKind
  | PermissionDenied : ErrorKind
deriving DecidableEq, Repr

/-- `std::io::Error` as the excerpt observes it: a kind and a message,
as built by `IoError::new(kind, msg)`. -/
structure IoError where
  kind : ErrorKind
  message : String
deriving DecidableEq, Repr

/-- `IoError::new`. -/
def IoError.new (kind : ErrorKind) (message : String) : IoError :=
  ⟨kind, message⟩

/-- An accepted TCP stream, opaque at this layer (tokio's `TcpStream`). -/
structure TcpStream where
  id : Nat
deriving DecidableEq, Repr

/-- The bound operating-system listening handle, opaque at this layer
(tokio's `TcpListener`). -/
structure ListenerHandle where
  id : Nat
deriving DecidableEq, Repr

/-- `TcpAcceptor` (tcp.rs lines 41-44): the live listening handle plus
the `LocalAddr` computed at bind time. -/
structure TcpAcceptor where
  inner : ListenerHandle
  local_addr : LocalAddr
deriving DecidableEq, Repr

/-- `Accepted` (the accepted-connection record of the conn module, as
built by tcp.rs lines 72-76): connection, cloned local address, converted
remote address. -/
structure Accepted where
  conn : TcpStream
  local_addr : LocalAddr
  remote_addr : SocketAddr
deriving DecidableEq, Repr

/-- `TcpListener::into_acceptor` (tcp.rs lines 33-38).  The two awaited
operating-system effects — `TokioTcpListener::bind` and
`inner.local_addr()` — are passed in as oracle results; the `?` operator
on each becomes the explicit error match.  On success the acceptor wraps
the OS-reported local address with tags `Tcp` and `Http`. -/
def TcpListener.into_acceptor
    (bindResult : Except IoError ListenerHandle)
    (osLocalAddr : ListenerHandle → Except IoError StdSocketAddr) :
    Except IoError TcpAcceptor :=
  match bindResult with
  | .error e => .error e
  | .ok inner =>
    match osLocalAddr inner with
    | .error e => .error e
    | .ok addr =>
        .ok ⟨inner, LocalAddr.new (SocketAddr.fromStd addr) TransProto.Tcp AppProto.Http⟩

/-- `TcpAcceptor::local_addrs` (tcp.rs lines 66-68): a one-element vector
holding a clone of the bind-time address. -/
def TcpAcceptor.local_addrs (a : TcpAcceptor) : List LocalAddr :=
  [a.local_addr]

/-- `TcpAcceptor::accept` (tcp.rs lines 71-77).  The awaited
`self.inner.accept()` result is the oracle input; the source maps over it,
building an `Accepted` from the new connection, a clone of `local_addr`
and the converted peer address, and touches no field of `self` — the
returned second component is the acceptor after the call. -/
def TcpAcceptor.accept (a : TcpAcceptor)
    (osAccept : Except IoError (TcpStream × StdSocketAddr)) :
    Except IoError Accepted × TcpAcceptor :=
  (osAccept.map (fun p => ⟨p.1, a.local_addr, SocketAddr.fromStd p.2⟩), a)

/-- The opaque error type of the HTTP engine (hyper), observed only
through its string rendering. -/
structure HyperError where
  message : String
deriving DecidableEq, Repr

/-- `e.to_string()` on the engine error. -/
def HyperError.to_string (e : HyperError) : String :=
  e.message

/-- `HttpConnection::serve for TcpStream` (tcp.rs lines 51-58).  The
awaited engine call `builders.http1.serve_connection(self, handler)
.with_upgrades()` is the oracle input; the source maps its error to
`IoError::new(ErrorKind::Other, e.to_string())`. -/
def TcpStream.serve (engineResult : Except HyperError Unit) : Except IoError Unit :=
  engineResult.mapError (fun e => IoError.new ErrorKind.Other e.to_string)

/-- String append is associative; used to regroup rendered fragments. -/
theorem strAppendAssoc (a b c : String) : a ++ b ++ c = a ++ (b ++ c) :=
  String.append_assoc a b c

/-- Converting a standard address in and back out is the identity. -/
theorem fromStd_into_std (s : StdSocketAddr) :
    (SocketAddr.fromStd s).into_std = some s := by
  cases s <;> rfl

/-- C2: every standard IPv4/IPv6 socket address `a` satisfies
`(SocketAddr.from(a)).into_std() = Some(a)`, and `into_std()` on the
`Unknown` and `Unix` variants returns `None`. -/
theorem socketaddr_into_std_roundtrip :
    (∀ s : StdSocketAddr, (SocketAddr.fromStd s).into_std = some s)
    ∧ SocketAddr.Unknown.into_std = none
    ∧ (∀ u : UnixSocketAddr, (SocketAddr.Unix u).into_std = none) :=
  ⟨fromStd_into_std, rfl, fun _ => rfl⟩

/-- C6: on every `SocketAddr`, exactly one of `is_ipv4`, `is_ipv6`,
`is_unix` is true, except on `Unknown`, where all three are false; the
sum of the three booleans counts the true ones. -/
theorem socketaddr_predicates_exclusive (a : SocketAddr) :
    (a.is_ipv4.toNat + a.is_ipv6.toNat + a.is_unix.toNat
      = if a = SocketAddr.Unknown then 0 else 1)
    ∧ match a with
      | .Unknown => a.is_ipv4 = false ∧ a.is_ipv6 = false ∧ a.is_unix = false
      | .IPv4 _ => a.is_ipv4 = true ∧ a.is_ipv6 = false ∧ a.is_unix = false
      | .IPv6 _ => a.is_ipv4 = false ∧ a.is_ipv6 = true ∧ a.is_unix = false
      | .Unix _ => a.is_ipv4 = false ∧ a.is_ipv6 = false ∧ a.is_unix = true := by
  cases a <;>
    simp [SocketAddr.is_ipv4, SocketAddr.is_ipv6, SocketAddr.is_unix]

/-- C7: `as_ipv4()` is non-empty exactly when `is_ipv4()` is true, and
likewise for `as_ipv6()`/`is_ipv6()` and `as_unix()`/`is_unix()`. -/
theorem socketaddr_accessors_iff (a : SocketAddr) :
    a.as_ipv4.isSome = a.is_ipv4
    ∧ a.as_ipv6.isSome = a.is_ipv6
    ∧ a.as_unix.isSome = a.is_unix := by
  cases a <;>
    simp [SocketAddr.as_ipv4, SocketAddr.as_ipv6, SocketAddr.as_unix,
      SocketAddr.is_ipv4, SocketAddr.is_ipv6, SocketAddr.is_unix]

/-- C10: the `From` conversion sends a `V4` input to the `IPv4` variant
and a `V6` input to the `IPv6` variant, never to `Unknown` or `Unix`, so
`into_std()` on the result is always non-empty. -/
theorem socketaddr_fromstd_variants (s : StdSocketAddr) :
    (match s with
      | .V4 v => SocketAddr.fromStd s = SocketAddr.IPv4 v
      | .V6 v => SocketAddr.fromStd s = SocketAddr.IPv6 v)
    ∧ (SocketAddr.fromStd s).is_unix = false
    ∧ SocketAddr.fromStd s ≠ SocketAddr.Unknown
    ∧ (SocketAddr.fromStd s).into_std.isSome = true := by
  cases s <;>
    simp [SocketAddr.fromStd, SocketAddr.is_unix, SocketAddr.into_std]

/-- The V6 rendering always has shape `[...] ++ ":" ++ port`. -/
theorem sockAddrV6ToString_shape (v : SocketAddrV6) :
    ∃ ip, sockAddrV6ToString v = ip ++ ":" ++ toString v.port := by
  by_cases h : v.scope_id = 0
  · refine ⟨"[" ++ ipv6ToString v.ip ++ "]", ?_⟩
    simp [sockAddrV6ToString, h, strAppendAssoc]
  · refine ⟨"[" ++ ipv6ToString v.ip ++ "%" ++ toString v.scope_id ++ "]", ?_⟩
    simp [sockAddrV6ToString, h, strAppendAssoc]

/-- C8: rendering a `SocketAddr` gives `"unknown"` for `Unknown`,
`"socket://<ip>:<port>"` for IPv4 and IPv6, `"unix://<path>"` for a Unix
address with a path, and `"unix://unknown"` for a pathless Unix
address. -/
theorem socketaddr_display_spec :
    SocketAddr.Unknown.display = "unknown"
    ∧ (∀ v : SocketAddrV4, (SocketAddr.IPv4 v).display
        = "socket://" ++ ipv4ToString v.ip ++ ":" ++ toString v.port)
    ∧ (∀ v : SocketAddrV6, ∃ ip, (SocketAddr.IPv6 v).display
        = "socket://" ++ ip ++ ":" ++ toString v.port)
    ∧ (∀ p : String, (SocketAddr.Unix ⟨some p⟩).display = "unix://" ++ p)
    ∧ (SocketAddr.Unix ⟨none⟩).display = "unix://unknown" := by
  refine ⟨rfl, fun v => ?_, fun v => ?_, fun p => rfl, rfl⟩
  · simp [SocketAddr.display, sockAddrV4ToString, strAppendAssoc]
  · obtain ⟨ip, hip⟩ := sockAddrV6ToString_shape v
    exact ⟨ip, by simp [SocketAddr.display, hip, strAppendAssoc]⟩

/-- C9: a `LocalAddr` with an IPv4 or IPv6 address renders as
`"(<transport>) <application>://<ip>:<port>"`; with an `Unknown` address
it renders as plain `"unknown"` whatever the tags; the concrete instance
(TCP, HTTP, 127.0.0.1:8080) renders exactly as
`"(TCP) HTTP://127.0.0.1:8080"`. -/
theorem localaddr_display_spec :
    (∀ (t : TransProto) (ap : AppProto) (v : SocketAddrV4),
      (LocalAddr.new (SocketAddr.IPv4 v) t ap).display
        = "(" ++ t.display ++ ") " ++ ap.display ++ "://" ++ sockAddrV4ToString v)
    ∧ (∀ (t : TransProto) (ap : AppProto) (v : SocketAddrV6),
      (LocalAddr.new (SocketAddr.IPv6 v) t ap).display
        = "(" ++ t.display ++ ") " ++ ap.display ++ "://" ++ sockAddrV6ToString v)
    ∧ (∀ (t : TransProto) (ap : AppProto),
      (LocalAddr.new SocketAddr.Unknown t ap).display = "unknown")
    ∧ (LocalAddr.new (SocketAddr.IPv4 ⟨⟨127, 0, 0, 1⟩, 8080⟩)
        TransProto.Tcp AppProto.Http).display = "(TCP) HTTP://127.0.0.1:8080" :=
  ⟨fun _ _ _ => rfl, fun _ _ _ => rfl, fun _ _ => rfl, by decide⟩

/-- C1: the claim that a pathless-Unix `LocalAddr` renders as
`"(<transport>) unix://unknown"` fails on the code: the source branch is
`f.write_str("({}) unix://unknown", self.trans_proto)`, which performs no
interpolation (and does not even type-check, `write_str` taking no format
argument), so the template is emitted literally and the transport tag is
never substituted.  At transport tag `Tcp` the rendered string is the
literal template, not `"(TCP) unix://unknown"`. -/
theorem localaddr_unix_nopath_display_bug :
    (LocalAddr.new (SocketAddr.Unix ⟨none⟩) TransProto.Tcp AppProto.Http).display
      = "(\x7b\x7d) unix://unknown"
    ∧ (LocalAddr.new (SocketAddr.Unix ⟨none⟩) TransProto.Tcp AppProto.Http).display
      ≠ "(TCP) unix://unknown" :=
  ⟨rfl, by decide⟩

/-- C3: `accept()` on success returns an `Accepted` whose connection is
the accepted stream, whose `local_addr` is the acceptor's bind-time
address and whose `remote_addr` is the converted peer address; on failure
it returns the underlying I/O error; in both cases the acceptor (its
`local_addr` and listening handle, hence `local_addrs()`) is unchanged,
so further `accept()` calls remain possible. -/
theorem tcpacceptor_accept_spec (a : TcpAcceptor)
    (r : Except IoError (TcpStream × StdSocketAddr)) :
    ((a.accept r).1
      = match r with
        | .ok p => .ok ⟨p.1, a.local_addr, SocketAddr.fromStd p.2⟩
        | .error e => .error e)
    ∧ (a.accept r).2 = a
    ∧ ((a.accept r).2).local_addrs = a.local_addrs
    ∧ ((a.accept r).2).inner = a.inner := by
  refine ⟨?_, rfl, rfl, rfl⟩
  cases r <;> rfl

/-- C4: whenever `into_acceptor` succeeds, `local_addrs()` on the result
is exactly one `LocalAddr`, built from the OS-reported local address of
the bound handle with transport tag `Tcp` and application tag `Http`, and
its standard-form conversion returns that OS-reported address. -/
theorem tcp_bind_local_addrs
    (bindResult : Except IoError ListenerHandle)
    (osLocalAddr : ListenerHandle → Except IoError StdSocketAddr)
    (acc : TcpAcceptor)
    (h : TcpListener.into_acceptor bindResult osLocalAddr = .ok acc) :
    ∃ s, osLocalAddr acc.inner = .ok s
      ∧ acc.local_addrs
          = [LocalAddr.new (SocketAddr.fromStd s) TransProto.Tcp AppProto.Http]
      ∧ acc.local_addrs.map LocalAddr.into_std = [some s] := by
  cases hb : bindResult with
  | error e => simp [TcpListener.into_acceptor, hb] at h
  | ok inner =>
    cases ho : osLocalAddr inner with
    | error e => simp [TcpListener.into_acceptor, hb, ho] at h
    | ok s =>
      simp only [TcpListener.into_acceptor, hb, ho, Except.ok.injEq] at h
      subst h
      refine ⟨s, ho, rfl, ?_⟩
      simp [TcpAcceptor.local_addrs, LocalAddr.into_std, LocalAddr.new,
        fromStd_into_std]

/-- The OS oracle for binding at 127.0.0.1:6878: the bind succeeds and
the handle reports that concrete address back. -/
def std6878 : StdSocketAddr :=
  .V4 ⟨⟨127, 0, 0, 1⟩, 6878⟩

/-- The acceptor produced by the successful bind at 127.0.0.1:6878. -/
def acceptor6878 : TcpAcceptor :=
  ⟨⟨0⟩, LocalAddr.new (SocketAddr.fromStd std6878) TransProto.Tcp AppProto.Http⟩

/-- Witness for C4: at the concrete bind of 127.0.0.1:6878 the acceptor
reports exactly one local address, whose standard conversion is
127.0.0.1:6878. -/
theorem tcp_bind_local_addrs_witness :
    ∃ s, (fun _ => Except.ok std6878 : ListenerHandle → Except IoError StdSocketAddr)
          acceptor6878.inner = .ok s
      ∧ acceptor6878.local_addrs
          = [LocalAddr.new (SocketAddr.fromStd s) TransProto.Tcp AppProto.Http]
      ∧ acceptor6878.local_addrs.map LocalAddr.into_std = [some s] :=
  tcp_bind_local_addrs (.ok ⟨0⟩) (fun _ => Except.ok std6878) acceptor6878 rfl

/-- C5: `serve` passes a successful engine result through unchanged and
maps every engine error to an I/O error of kind `Other` carrying the
stringified engine error; no outcome is swallowed. -/
theorem tcpstream_serve_error_mapping (r : Except HyperError Unit) :
    TcpStream.serve r
      = match r with
        | .ok u => .ok u
        | .error e => .error (IoError.new ErrorKind.Other e.to_string) := by
  cases r <;> rfl
